import Mathlib

/-!
Verification of the CampyGo voice-operated ride-hailing app.

We give a shallow embedding of the `App` component of `src/unnamed/part_000`:
its React `useState` fields become the fields of an explicit `AppState`
record, each handler/callback becomes a pure state-transformer, and the
asynchronous callback sources (speech-recognition events, speech-synthesis
completion, the heartbeat interval, the 50 ms speak delay, the 4 s
driver-found timer) become an event alphabet `Ev` with a step function.
React `setState` calls are modelled as immediate field updates, which is the
standard synchronous-render reading of the handlers.

Numbers that the claims inspect (coordinates, prices) are modelled as `ℚ`
inside the application state so that all application-level definitions are
executable; the position-simulation engine, whose step involves
`Math.sqrt`/`Math.atan2`/`sin`/`cos`, is modelled separately over `ℝ`.
-/

/-- The `View` union type of `src/unnamed/part_001` line 5. -/
inductive View
  | home
  | passengerRegister
  | driverRegister
  | passengerDashboard
  | driverDashboard
  | searching
  | tripActive
  | rateDriver
deriving DecidableEq

/-- The `UserType` union type (`'passenger' | 'driver'`). -/
inductive UserType
  | passenger
  | driver
deriving DecidableEq

/-- The `DriverStatus` union type (`'online' | 'offline'`). -/
inductive DriverStatus
  | online
  | offline
deriving DecidableEq

/-- The `TripStatus` union type (`'pending' | 'searching' | 'accepted'`). -/
inductive TripStatus
  | pending
  | searching
  | accepted
deriving DecidableEq

/-- The `Trip` interface of `src/unnamed/part_001` lines 16-37. -/
structure Trip where
  id : ℕ
  pickupLat : ℚ
  pickupLng : ℚ
  pickupAddress : String
  destinationLat : ℚ
  destinationLng : ℚ
  destinationAddress : String
  status : TripStatus
  distance : ℚ
  price : ℚ
  passengerName : String
  passengerPhone : String
  passengerPhoto : Option String
  driverName : Option String
  driverPhone : Option String
  driverPlate : Option String
  driverLat : Option ℚ
  driverLng : Option ℚ
  driverPhoto : Option String
deriving DecidableEq

/-- The `DriverProfile` interface of `src/unnamed/part_001` lines 39-48. -/
structure DriverProfile where
  name : String
  documentNumber : String
  phone : String
  plate : String
  rating : ℚ
  completedTrips : ℕ
  photo : Option String
  vehiclePhotos : List String
deriving DecidableEq

/-- The `PassengerProfile` interface of `src/unnamed/part_001` lines 50-56. -/
structure PassengerProfile where
  name : String
  documentNumber : String
  phone : String
  rating : ℚ
  photo : Option String
deriving DecidableEq

/-- The `TripRequest` interface of `src/unnamed/part_001` lines 58-67.
Nullable numbers become `Option ℚ`. -/
structure TripRequest where
  pickupLat : Option ℚ
  pickupLng : Option ℚ
  pickupAddress : String
  destinationLat : Option ℚ
  destinationLng : Option ℚ
  destinationAddress : String
  distance : ℚ
  price : ℚ
deriving DecidableEq

/-- JavaScript truthiness of a nullable number, as used by the source in
`!stateRef.current.tripRequest.pickupLat` and
`currentState.tripRequest.destinationLat &&`: `null` and `0` are falsy. -/
def truthyQ : Option ℚ → Bool
  | none => false
  | some x => decide (x ≠ 0)

/-- The closed `ActionKind` wire enumeration produced by the intent service
(the `ACCIONES DISPONIBLES` list in the prompt of `getGeminiResponse`). -/
inductive ActionKind
  | SET_PASSENGER_NAME
  | SET_PASSENGER_PHONE
  | SET_DRIVER_NAME
  | SET_DRIVER_PHONE
  | SET_DRIVER_PLATE
  | NAVIGATE_PASSENGER_REG
  | NAVIGATE_DRIVER_REG
  | NAVIGATE_DESTINATION
  | CONFIRM_TRIP
  | CANCEL
  | NONE
deriving DecidableEq

/-- The parsed intent-service response `{speech, action, value}`
(`responseSchema` of `getGeminiResponse`). -/
structure IntentData where
  action : ActionKind
  value : String
  speech : String
deriving DecidableEq

/-- Outcome of one `recognitionRef.current.start()` attempt inside
`startListening`: it either starts, or throws with `e.error === 'not-allowed'`
(microphone permission denied), or throws some other error. -/
inductive StartOutcome
  | ok
  | permissionDenied
  | otherFailure
deriving DecidableEq

/-- The state of the `App` component: one field per `useState` hook plus
explicit fields for the pending timers/queues of the asynchronous adapters,
plus two observation logs (`spoken`, `destinationResolves`) recording the
outgoing speak requests and destination-resolution requests. -/
structure AppState where
  userType : Option UserType
  currentView : View
  driverStatus : DriverStatus
  activeTrip : Option Trip
  tripRequest : TripRequest
  passengerProfile : PassengerProfile
  driverProfile : DriverProfile
  isListening : Bool
  isProcessing : Bool
  aiSpeaking : Bool
  voiceActive : Bool
  transcript : String
  /-- an utterance is queued in / being played by the speech synthesizer -/
  synthQueued : Bool
  /-- the 50 ms `setTimeout` inside `speak` has been scheduled but has not
  fired yet, so its utterance has not reached the synthesizer -/
  speakDelayPending : Bool
  /-- the 4 s driver-found `setTimeout` of `requestTrip` is pending -/
  pendingAccept : Bool
  /-- log of the texts passed to `speak` -/
  spoken : List String
  /-- log of the free-text hints passed to `handleSetDestination` -/
  destinationResolves : List String
deriving DecidableEq

/-- The all-null/empty `TripRequest` used both as the initial value and as
the reset value in `completeTrip`/`submitRating`. -/
def emptyTripRequest : TripRequest :=
  { pickupLat := none, pickupLng := none, pickupAddress := ""
    destinationLat := none, destinationLng := none, destinationAddress := ""
    distance := 0, price := 0 }

/-- The initial component state (all the `useState` initial values). -/
def initState : AppState :=
  { userType := none
    currentView := .home
    driverStatus := .offline
    activeTrip := none
    tripRequest := emptyTripRequest
    passengerProfile :=
      { name := "", documentNumber := "", phone := "", rating := 5.0, photo := none }
    driverProfile :=
      { name := "", documentNumber := "", phone := "", plate := "", rating := 4.8
        completedTrips := 12, photo := none, vehiclePhotos := [] }
    isListening := false
    isProcessing := false
    aiSpeaking := false
    voiceActive := false
    transcript := ""
    synthQueued := false
    speakDelayPending := false
    pendingAccept := false
    spoken := []
    destinationResolves := [] }

/-- `stopListening` (part_000 lines 155-160): stops the recognizer and
clears the listening flag. -/
def stopListening (s : AppState) : AppState :=
  { s with isListening := false }

/-- `speak` (part_000 lines 179-215): cancels anything in the synthesizer,
stops capture, marks the assistant as speaking, clears the processing flag,
and schedules the actual utterance behind a 50 ms timeout.  The requested
text is recorded in the `spoken` log. -/
def speak (text : String) (s : AppState) : AppState :=
  { s with synthQueued := false
           isListening := false
           aiSpeaking := true
           isProcessing := false
           speakDelayPending := true
           spoken := s.spoken ++ [text] }

/-- `startListening` (part_000 lines 138-153): a no-op while speaking,
processing, or already listening; otherwise attempts
`recognitionRef.current.start()`.  Every start exception - the
permission-denied (`not-allowed`) case included - is swallowed: the catch
block only decides whether to log (and the log call itself is commented
out).  We take `recognitionRef.current` to be initialized, as arranged by
the init-recognition effect. -/
def startListening (o : StartOutcome) (s : AppState) : AppState :=
  if s.aiSpeaking || s.isProcessing || s.isListening then s
  else
    match o with
    | .ok => { s with isListening := true }
    | .permissionDenied => s
    | .otherFailure => s

/-- One tick of the heartbeat interval (part_000 lines 163-176): if the
session is not listening, not speaking and not processing, re-issue
`startListening`. -/
def heartbeatTick (o : StartOutcome) (s : AppState) : AppState :=
  if !s.isListening && !s.aiSpeaking && !s.isProcessing then startListening o s
  else s

/-- The `resumeListening` continuation installed by `speak` as
`utterance.onend`/`utterance.onerror` (part_000 lines 202-211): clears the
speaking flag (the finished utterance leaves the synthesizer) and, if voice
is still enabled, restarts capture after a short delay. -/
def resumeListening (o : StartOutcome) (s : AppState) : AppState :=
  let s1 := { s with aiSpeaking := false, synthQueued := false }
  if s1.voiceActive then startListening o s1 else s1

/-- `toggleVoiceAssistant` (part_000 lines 253-264). -/
def toggleVoiceAssistant (s : AppState) : AppState :=
  if s.voiceActive then
    { s with voiceActive := false
             synthQueued := false
             isListening := false
             aiSpeaking := false
             transcript := "" }
  else
    speak "Hola, soy tu asistente. Dime tu nombre o a dónde quieres ir."
      { s with voiceActive := true }

/-- `data.value.replace(/\D/g, '')` from the `SET_PASSENGER_PHONE` /
`SET_DRIVER_PHONE` cases: strip every non-digit character. -/
def cleanPhone (v : String) : String :=
  String.mk (v.data.filter Char.isDigit)

/-- `data.value.replace(/[^a-zA-Z0-9]/g, '').toUpperCase()` from the
`SET_DRIVER_PLATE` case: strip every non-alphanumeric character, then
uppercase. -/
def cleanPlate (v : String) : String :=
  String.mk ((v.data.filter (fun c => c.isAlpha || c.isDigit)).map Char.toUpper)

/-- `handleSetDestination` (part_000 lines 433-456), observed at its
interface: the call is recorded with its free-text hint.  Its body resolves
a demo destination through the external location service
(`getCurrentLocation` / `getAddressFromCoords` / `calculateDistance` /
`calculatePrice`, none of which are in `src/`) together with
`Math.random`, so the coordinates it writes are not determined by the
component state; no claim depends on them. -/
def handleSetDestination (hint : String) (s : AppState) : AppState :=
  { s with destinationResolves := s.destinationResolves ++ [hint] }

/-- `requestTrip` (part_000 lines 473-509).  `Date.now()` is abstracted to
the fixed id `0`; no claim reads the id.  The 4 s driver-found timeout is
recorded in `pendingAccept` and fires as the `Ev.acceptTimer` event. -/
def requestTrip (s : AppState) : AppState :=
  if !(truthyQ s.tripRequest.pickupLat && truthyQ s.tripRequest.destinationLat) then
    speak "Primero necesito saber a dónde vas." s
  else
    { s with
      activeTrip := some
        { id := 0
          pickupLat := s.tripRequest.pickupLat.getD 0
          pickupLng := s.tripRequest.pickupLng.getD 0
          pickupAddress := s.tripRequest.pickupAddress
          destinationLat := s.tripRequest.destinationLat.getD 0
          destinationLng := s.tripRequest.destinationLng.getD 0
          destinationAddress := s.tripRequest.destinationAddress
          status := .searching
          distance := s.tripRequest.distance
          price := s.tripRequest.price
          passengerName := s.passengerProfile.name
          passengerPhone := s.passengerProfile.phone
          passengerPhoto := s.passengerProfile.photo
          driverName := none, driverPhone := none, driverPlate := none
          driverLat := none, driverLng := none, driverPhoto := none }
      currentView := .searching
      pendingAccept := true }

/-- The 4 s `setTimeout` callback of `requestTrip` (part_000 lines
495-508): the searching trip is accepted by the demo driver and the view
moves to the active trip.  The source dereferences `prev!`; when there is
no active trip we only consume the timer. -/
def driverFound (s : AppState) : AppState :=
  match s.activeTrip with
  | none => { s with pendingAccept := false }
  | some t =>
      speak "¡Conductor encontrado! Juan viene en camino."
        { s with
          pendingAccept := false
          activeTrip := some
            { t with status := .accepted
                     driverName := some "Juan Pérez"
                     driverPhone := some "310 555 1234"
                     driverPlate := some "XYZ-123"
                     driverPhoto := some "https://ui-avatars.com/api/?name=Juan+P&background=0D8ABC&color=fff"
                     driverLat := some (t.pickupLat - 0.005)
                     driverLng := some (t.pickupLng - 0.005) }
          currentView := .tripActive }

/-- `submitRating` (part_000 lines 524-529): clear the active trip, reset
the trip request, go to the passenger dashboard and thank the user. -/
def submitRating (rating : ℕ) (s : AppState) : AppState :=
  speak ("Gracias por calificar con " ++ toString rating ++ " estrellas.")
    { s with activeTrip := none
             tripRequest := emptyTripRequest
             currentView := .passengerDashboard }

/-- `completeTrip` (part_000 lines 511-522). -/
def completeTrip (s : AppState) : AppState :=
  if s.userType = some .passenger then
    speak "Hemos llegado. ¿Cuántas estrellas para el conductor?"
      { s with currentView := .rateDriver }
  else
    speak "Viaje terminado."
      { s with
        driverProfile :=
          { s.driverProfile with completedTrips := s.driverProfile.completedTrips + 1 }
        activeTrip := none
        tripRequest := emptyTripRequest
        currentView := .driverDashboard }

/-- `goBack` (part_000 lines 531-538).  `view.includes('register')` matches
exactly the two registration views. -/
def goBack (s : AppState) : AppState :=
  match s.currentView with
  | .passengerRegister => { s with currentView := .home, userType := none }
  | .driverRegister => { s with currentView := .home, userType := none }
  | .searching => { s with currentView := .passengerDashboard, activeTrip := none }
  | .driverDashboard =>
      { s with currentView := .home, driverStatus := .offline, userType := none }
  | .passengerDashboard => { s with currentView := .home, userType := none }
  | .rateDriver => submitRating 5 s
  | _ => s

/-- The `EXECUTE ACTIONS` switch plus the closing `speak` of
`getGeminiResponse` (part_000 lines 354-416), run once the intent service
has replied with parsed `IntentData`.  Guards read `snap`, the
`currentState` snapshot passed into `getGeminiResponse`; mutations apply to
the live state `s` (the two coincide in the event machine below, as they do
in the source where `stateRef.current` is the freshest render).
`shouldSpeak` is the constant `true` in the source, so the speech branch
always runs, with `"Entendido."` substituted for an empty `data.speech`. -/
def executeActions (d : IntentData) (snap s : AppState) : AppState :=
  let s' :=
    match d.action with
    | .NAVIGATE_PASSENGER_REG =>
        { s with userType := some .passenger, currentView := .passengerRegister }
    | .NAVIGATE_DRIVER_REG =>
        { s with userType := some .driver, currentView := .driverRegister }
    | .SET_PASSENGER_NAME =>
        if snap.currentView = .passengerRegister ∨ snap.currentView = .home then
          let s1 :=
            if snap.currentView = .home then
              { s with userType := some .passenger, currentView := .passengerRegister }
            else s
          { s1 with passengerProfile := { s1.passengerProfile with name := d.value } }
        else s
    | .SET_DRIVER_NAME =>
        if snap.currentView = .driverRegister ∨ snap.currentView = .home then
          let s1 :=
            if snap.currentView = .home then
              { s with userType := some .driver, currentView := .driverRegister }
            else s
          { s1 with driverProfile := { s1.driverProfile with name := d.value } }
        else s
    | .SET_PASSENGER_PHONE =>
        { s with passengerProfile := { s.passengerProfile with phone := cleanPhone d.value } }
    | .SET_DRIVER_PHONE =>
        { s with driverProfile := { s.driverProfile with phone := cleanPhone d.value } }
    | .SET_DRIVER_PLATE =>
        { s with driverProfile := { s.driverProfile with plate := cleanPlate d.value } }
    | .NAVIGATE_DESTINATION =>
        let s1 :=
          if snap.currentView = .passengerRegister then
            { s with currentView := .passengerDashboard }
          else s
        handleSetDestination d.value s1
    | .CONFIRM_TRIP =>
        if snap.currentView = .passengerDashboard ∧
           truthyQ snap.tripRequest.destinationLat = true then
          requestTrip s
        else s
    | .CANCEL => goBack s
    | .NONE => s
  speak (if d.speech = "" then "Entendido." else d.speech) s'

/-- `processVoiceCommand` (part_000 lines 267-279) when `getGeminiResponse`
resolves: set the transcript, raise the processing flag, then execute the
parsed actions against a snapshot of the state taken when interpretation
began. -/
def processVoiceCommandSuccess (text : String) (d : IntentData) (s : AppState) : AppState :=
  let s1 := { s with transcript := text, isProcessing := true }
  executeActions d s1 s1

/-- `processVoiceCommand` when `getGeminiResponse` throws (timeout, empty
response `"No response from AI"`, or `JSON.parse` failure): the catch block
clears the processing flag and, if voice is still enabled, restarts capture
directly - it deliberately does not speak (`// Don't speak error endlessly,
just let heartbeat resume`). -/
def processVoiceCommandFailure (text : String) (o : StartOutcome) (s : AppState) : AppState :=
  let s1 := { s with transcript := text, isProcessing := true }
  let s2 := { s1 with isProcessing := false }
  if s2.voiceActive then startListening o s2 else s2

/-- The asynchronous event sources feeding the component: the voice toggle
button, the heartbeat interval, the speech-recognition callbacks
(`onstart`, `onend`, `onerror`, `onresult` combined with the resolution of
the intent call it triggers), the 50 ms speak delay, the utterance
completion callbacks, the 4 s driver-found timer, and the manual UI
actions that drive the trip lifecycle. -/
inductive Ev
  | toggle
  | hbTick (o : StartOutcome)
  | recStart
  | recEnd
  | recError (noSpeech : Bool)
  | voiceOk (text : String) (d : IntentData)
  | voiceFail (text : String) (o : StartOutcome)
  | speakDelayFire
  | uttDone (o : StartOutcome)
  | acceptTimer
  | pressBack
  | pressCompleteTrip
  | pressRate (r : ℕ)

/-- One event dispatch.  Guards encode when each callback can fire:
`hbTick` only while the interval is installed (the heartbeat effect clears
it whenever `voiceActive` is false), `recStart`/`onresult` only while
capture is active, `onresult` only for a non-empty trimmed transcript,
`speakDelayFire` only for a scheduled speak timeout, `acceptTimer` only for
a pending driver-found timeout.  `recError` clears the listening flag
except for `'no-speech'` errors (part_000 lines 242-247). -/
def step : Ev → AppState → AppState
  | .toggle, s => toggleVoiceAssistant s
  | .hbTick o, s => if s.voiceActive then heartbeatTick o s else s
  | .recStart, s => if s.isListening then { s with isListening := true } else s
  | .recEnd, s => { s with isListening := false }
  | .recError noSpeech, s => if noSpeech then s else { s with isListening := false }
  | .voiceOk text d, s =>
      if s.isListening && !(text.trim = "") then processVoiceCommandSuccess text d s else s
  | .voiceFail text o, s =>
      if s.isListening && !(text.trim = "") then processVoiceCommandFailure text o s else s
  | .speakDelayFire, s =>
      if s.speakDelayPending then
        { s with speakDelayPending := false, synthQueued := true }
      else s
  | .uttDone o, s => resumeListening o s
  | .acceptTimer, s => if s.pendingAccept then driverFound s else s
  | .pressBack, s => goBack s
  | .pressCompleteTrip, s => completeTrip s
  | .pressRate r, s => submitRating r s

/-- Run a sequence of events from a state. -/
def run (evs : List Ev) (s : AppState) : AppState :=
  evs.foldl (fun st e => step e st) s

/-- The events that fire on their own - timers and adapter callbacks - as
opposed to the user pressing a button (`toggle`, `pressBack`,
`pressCompleteTrip`, `pressRate`). -/
def Ev.spontaneous : Ev → Bool
  | .toggle => false
  | .pressBack => false
  | .pressCompleteTrip => false
  | .pressRate _ => false
  | _ => true

/-- One tick of the simulation interval (part_000 lines 100-133), acting on
the driver position `(driverLat, driverLng)` with the pickup point as
target.  Mirrors the source: the update first guards
`!prev.driverLat || !prev.driverLng` - under JS truthiness a driver
coordinate that is exactly `0` also fails the guard, and the tick returns
the position unchanged (the `!prev` disjunct, no active trip at all, is
handled by the owning interval, not by this update).  Past the guard:
`speed = 0.0005`, delta components `dy`/`dx`,
`distance = Math.sqrt(dx*dx + dy*dy)`, snap when `distance < 0.0005`,
otherwise `angle = Math.atan2(dy, dx)` and a move of
`(sin angle * speed, cos angle * speed)`.  `Math.atan2(dy, dx)` is the
argument of the complex number `dx + dy*i`. -/
noncomputable def simulationTick (pos target : ℝ × ℝ) : ℝ × ℝ :=
  if pos.1 = 0 ∨ pos.2 = 0 then pos
  else
    let dy := target.1 - pos.1
    let dx := target.2 - pos.2
    let distance := Real.sqrt (dx * dx + dy * dy)
    if distance < 0.0005 then target
    else
      let angle := Complex.arg ⟨dx, dy⟩
      (pos.1 + Real.sin angle * 0.0005, pos.2 + Real.cos angle * 0.0005)

/-- The Euclidean distance-to-target computed by the simulation tick. -/
noncomputable def distToTarget (pos target : ℝ × ℝ) : ℝ :=
  Real.sqrt ((target.2 - pos.2) * (target.2 - pos.2) +
             (target.1 - pos.1) * (target.1 - pos.1))

theorem dist_simulationTick (pos target : ℝ × ℝ)
    (h1 : pos.1 ≠ 0) (h2 : pos.2 ≠ 0)
    (h : 0.0005 ≤ distToTarget pos target) :
    distToTarget (simulationTick pos target) target = distToTarget pos target - 0.0005 := by
  rcases pos with ⟨plat, plng⟩
  rcases target with ⟨tlat, tlng⟩
  simp only [distToTarget, simulationTick] at h ⊢
  rw [if_neg (show ¬(plat = 0 ∨ plng = 0) from fun hc => hc.elim h1 h2)]
  set dy := tlat - plat with hdy
  set dx := tlng - plng with hdx
  have hnn : (0:ℝ) ≤ dx * dx + dy * dy :=
    add_nonneg (mul_self_nonneg dx) (mul_self_nonneg dy)
  have hdd : Real.sqrt (dx * dx + dy * dy) * Real.sqrt (dx * dx + dy * dy)
      = dx * dx + dy * dy := Real.mul_self_sqrt hnn
  set d := Real.sqrt (dx * dx + dy * dy) with hdef
  have hd0 : (0:ℝ) < d := lt_of_lt_of_le (by norm_num) h
  have hdne : d ≠ 0 := ne_of_gt hd0
  have habs : Complex.abs ⟨dx, dy⟩ = d := by
    rw [Complex.abs_apply, Complex.normSq_mk]
  have hz : (⟨dx, dy⟩ : ℂ) ≠ 0 := by
    intro h0
    rw [h0, map_zero] at habs
    exact hdne habs.symm
  have hsin : Real.sin (Complex.arg ⟨dx, dy⟩) = dy / d := by
    rw [Complex.sin_arg, habs]
  have hcos : Real.cos (Complex.arg ⟨dx, dy⟩) = dx / d := by
    rw [Complex.cos_arg hz, habs]
  rw [if_neg (not_lt.mpr h), hsin, hcos]
  have key : (tlng - (plng + dx / d * 0.0005)) * (tlng - (plng + dx / d * 0.0005)) +
      (tlat - (plat + dy / d * 0.0005)) * (tlat - (plat + dy / d * 0.0005))
      = (d - 0.0005) ^ 2 := by
    have e1 : tlng - (plng + dx / d * 0.0005) = dx - dx / d * 0.0005 := by
      rw [hdx]; ring
    have e2 : tlat - (plat + dy / d * 0.0005) = dy - dy / d * 0.0005 := by
      rw [hdy]; ring
    have e3 : (dx - dx / d * 0.0005) * (dx - dx / d * 0.0005) +
        (dy - dy / d * 0.0005) * (dy - dy / d * 0.0005)
        = (dx * dx + dy * dy) * ((d - 0.0005) / d) ^ 2 := by
      field_simp
      ring
    rw [e1, e2, e3, ← hdd]
    field_simp
    ring
  rw [key, Real.sqrt_sq (by linarith : (0:ℝ) ≤ d - 0.0005)]

/-- Claim C7, counterexample to the claim as stated: the claim quantifies
over every driver position, but the source guard
`!prev.driverLat || !prev.driverLng` (part_000 line 106) also catches a
coordinate that is exactly `0`, so at driver position `(0, -74.08)` - a
point on the equator - with pickup target `(0.003, -74.076)` at distance
`0.005`, well above the arrival epsilon, the tick returns the position
unchanged and the distance to the target does not decrease. -/
theorem c7_zero_coordinate_freezes :
    simulationTick ((0:ℝ), (-74.08:ℝ)) ((0.003:ℝ), (-74.076:ℝ))
      = ((0:ℝ), (-74.08:ℝ)) ∧
    0.0005 ≤ distToTarget ((0:ℝ), (-74.08:ℝ)) ((0.003:ℝ), (-74.076:ℝ)) ∧
    distToTarget (simulationTick ((0:ℝ), (-74.08:ℝ)) ((0.003:ℝ), (-74.076:ℝ)))
        ((0.003:ℝ), (-74.076:ℝ))
      = distToTarget ((0:ℝ), (-74.08:ℝ)) ((0.003:ℝ), (-74.076:ℝ)) := by
  have hguard : simulationTick ((0:ℝ), (-74.08:ℝ)) ((0.003:ℝ), (-74.076:ℝ))
      = ((0:ℝ), (-74.08:ℝ)) := by
    unfold simulationTick
    rw [if_pos (show ((0:ℝ), (-74.08:ℝ)).1 = 0 ∨ ((0:ℝ), (-74.08:ℝ)).2 = 0
          from Or.inl rfl)]
  have hdist : distToTarget ((0:ℝ), (-74.08:ℝ)) ((0.003:ℝ), (-74.076:ℝ)) = 0.005 := by
    have e : ((-74.076:ℝ) - (-74.08)) * ((-74.076:ℝ) - (-74.08)) +
        ((0.003:ℝ) - 0) * ((0.003:ℝ) - 0) = (0.005:ℝ) ^ 2 := by norm_num
    rw [distToTarget, e, Real.sqrt_sq (by norm_num : (0:ℝ) ≤ 0.005)]
  exact ⟨hguard, by rw [hdist]; norm_num, by rw [hguard]⟩

/-- Claim C7 (amended): for every driver position that passes the source
truthiness guard (both coordinates nonzero), each simulation tick strictly
decreases the Euclidean distance to the pickup target (by exactly the
speed 0.0005) while that distance is at least the arrival epsilon 0.0005,
and once the distance is below 0.0005 the tick sets the position exactly
to the target; a tick at a position whose latitude or longitude is exactly
`0` is a no-op; and a tick at the target returns the target, so every tick
after arrival is an idempotent no-op. -/
theorem c7_simulation_tick_converges (pos target : ℝ × ℝ) :
    (pos.1 ≠ 0 → pos.2 ≠ 0 → 0.0005 ≤ distToTarget pos target →
        distToTarget (simulationTick pos target) target
          = distToTarget pos target - 0.0005 ∧
        distToTarget (simulationTick pos target) target < distToTarget pos target) ∧
    (pos.1 ≠ 0 → pos.2 ≠ 0 → distToTarget pos target < 0.0005 →
        simulationTick pos target = target) ∧
    (pos.1 = 0 ∨ pos.2 = 0 → simulationTick pos target = pos) ∧
    simulationTick target target = target := by
  refine ⟨fun h1 h2 h => ⟨dist_simulationTick pos target h1 h2 h, ?_⟩,
          fun h1 h2 h => ?_, fun hz => ?_, ?_⟩
  · rw [dist_simulationTick pos target h1 h2 h]
    linarith
  · rcases pos with ⟨plat, plng⟩
    rcases target with ⟨tlat, tlng⟩
    simp only [distToTarget] at h
    simp only [simulationTick]
    rw [if_neg (show ¬(plat = 0 ∨ plng = 0) from fun hc => hc.elim h1 h2), if_pos h]
  · unfold simulationTick
    rw [if_pos hz]
  · by_cases hz : target.1 = 0 ∨ target.2 = 0
    · unfold simulationTick
      rw [if_pos hz]
    · rcases target with ⟨tlat, tlng⟩
      simp only [simulationTick]
      rw [if_neg (show ¬(tlat = 0 ∨ tlng = 0) from hz)]
      rw [if_pos]
      simp only [sub_self, mul_zero, add_zero, Real.sqrt_zero]
      norm_num

theorem c7_simulation_tick_converges_wit :
    (0.0005 ≤ distToTarget ((1:ℝ), (1:ℝ)) ((1.0006:ℝ), (1.0008:ℝ)) ∧
      distToTarget (simulationTick ((1:ℝ), (1:ℝ)) ((1.0006:ℝ), (1.0008:ℝ)))
          ((1.0006:ℝ), (1.0008:ℝ))
        < distToTarget ((1:ℝ), (1:ℝ)) ((1.0006:ℝ), (1.0008:ℝ))) ∧
    (distToTarget ((1:ℝ), (1:ℝ)) ((1.0001:ℝ), (1:ℝ)) < 0.0005 ∧
      simulationTick ((1:ℝ), (1:ℝ)) ((1.0001:ℝ), (1:ℝ)) = ((1.0001:ℝ), (1:ℝ))) ∧
    simulationTick ((0:ℝ), (-74.08:ℝ)) ((4.605:ℝ), (-74.075:ℝ))
      = ((0:ℝ), (-74.08:ℝ)) := by
  have h1 : distToTarget ((1:ℝ), (1:ℝ)) ((1.0006:ℝ), (1.0008:ℝ)) = 0.001 := by
    have e : ((1.0008:ℝ) - 1) * ((1.0008:ℝ) - 1) + ((1.0006:ℝ) - 1) * ((1.0006:ℝ) - 1)
        = (0.001:ℝ) ^ 2 := by norm_num
    rw [distToTarget, e, Real.sqrt_sq (by norm_num : (0:ℝ) ≤ 0.001)]
  have h2 : distToTarget ((1:ℝ), (1:ℝ)) ((1.0001:ℝ), (1:ℝ)) = 0.0001 := by
    have e : ((1:ℝ) - 1) * ((1:ℝ) - 1) + ((1.0001:ℝ) - 1) * ((1.0001:ℝ) - 1)
        = (0.0001:ℝ) ^ 2 := by norm_num
    rw [distToTarget, e, Real.sqrt_sq (by norm_num : (0:ℝ) ≤ 0.0001)]
  have hge : (0.0005:ℝ) ≤ distToTarget ((1:ℝ), (1:ℝ)) ((1.0006:ℝ), (1.0008:ℝ)) := by
    rw [h1]; norm_num
  have hlt : distToTarget ((1:ℝ), (1:ℝ)) ((1.0001:ℝ), (1:ℝ)) < 0.0005 := by
    rw [h2]; norm_num
  exact ⟨⟨hge, ((c7_simulation_tick_converges _ _).1 (by norm_num) (by norm_num) hge).2⟩,
         ⟨hlt, (c7_simulation_tick_converges _ _).2.1 (by norm_num) (by norm_num) hlt⟩,
         (c7_simulation_tick_converges _ _).2.2.1 (Or.inl rfl)⟩

/-- The mutual-exclusion property of the voice session: the capture flag
`isListening` and the synthesis flag `aiSpeaking` are not both set. -/
def VoiceMutex (s : AppState) : Prop :=
  ¬(s.isListening = true ∧ s.aiSpeaking = true)

theorem mutex_speak (text : String) (s : AppState) : VoiceMutex (speak text s) := by
  simp [VoiceMutex, speak]

theorem mutex_startListening (o : StartOutcome) (s : AppState) (h : VoiceMutex s) :
    VoiceMutex (startListening o s) := by
  unfold startListening
  split
  · exact h
  · rename_i hc
    simp only [Bool.or_eq_true, not_or, Bool.not_eq_true] at hc
    cases o <;> simp [VoiceMutex, hc.1]

theorem mutex_requestTrip (s : AppState) (h : VoiceMutex s) : VoiceMutex (requestTrip s) := by
  unfold requestTrip
  split
  · exact mutex_speak _ _
  · simpa [VoiceMutex] using h

theorem mutex_submitRating (r : ℕ) (s : AppState) : VoiceMutex (submitRating r s) := by
  unfold submitRating
  exact mutex_speak _ _

theorem mutex_goBack (s : AppState) (h : VoiceMutex s) : VoiceMutex (goBack s) := by
  unfold goBack
  split
  all_goals first
    | exact mutex_submitRating 5 s
    | simpa [VoiceMutex] using h

theorem mutex_completeTrip (s : AppState) : VoiceMutex (completeTrip s) := by
  unfold completeTrip
  split <;> exact mutex_speak _ _

theorem mutex_driverFound (s : AppState) (h : VoiceMutex s) : VoiceMutex (driverFound s) := by
  unfold driverFound
  split
  · simpa [VoiceMutex] using h
  · exact mutex_speak _ _

theorem mutex_executeActions (d : IntentData) (snap s : AppState) :
    VoiceMutex (executeActions d snap s) := by
  unfold executeActions
  exact mutex_speak _ _

theorem mutex_processSuccess (text : String) (d : IntentData) (s : AppState) :
    VoiceMutex (processVoiceCommandSuccess text d s) := by
  unfold processVoiceCommandSuccess
  exact mutex_executeActions _ _ _

theorem mutex_processFailure (text : String) (o : StartOutcome) (s : AppState)
    (h : VoiceMutex s) : VoiceMutex (processVoiceCommandFailure text o s) := by
  unfold processVoiceCommandFailure
  dsimp only
  split
  · apply mutex_startListening
    simpa [VoiceMutex] using h
  · simpa [VoiceMutex] using h

theorem mutex_resumeListening (o : StartOutcome) (s : AppState) :
    VoiceMutex (resumeListening o s) := by
  unfold resumeListening
  dsimp only
  split
  · apply mutex_startListening
    simp [VoiceMutex]
  · simp [VoiceMutex]

theorem mutex_toggle (s : AppState) : VoiceMutex (toggleVoiceAssistant s) := by
  unfold toggleVoiceAssistant
  split
  · simp [VoiceMutex]
  · exact mutex_speak _ _

theorem mutex_heartbeatTick (o : StartOutcome) (s : AppState) (h : VoiceMutex s) :
    VoiceMutex (heartbeatTick o s) := by
  unfold heartbeatTick
  split
  · exact mutex_startListening _ _ h
  · exact h

theorem mutex_step (e : Ev) (s : AppState) (h : VoiceMutex s) : VoiceMutex (step e s) := by
  cases e with
  | toggle => exact mutex_toggle s
  | hbTick o =>
      simp only [step]; split
      · exact mutex_heartbeatTick o s h
      · exact h
  | recStart =>
      simp only [step]; split
      · rename_i hl
        simp only [VoiceMutex] at h ⊢
        simp_all
      · exact h
  | recEnd => simp [step, VoiceMutex]
  | recError ns =>
      simp only [step]; split
      · exact h
      · simp [VoiceMutex]
  | voiceOk t d =>
      simp only [step]; split
      · exact mutex_processSuccess t d s
      · exact h
  | voiceFail t o =>
      simp only [step]; split
      · exact mutex_processFailure t o s h
      · exact h
  | speakDelayFire =>
      simp only [step]; split
      · simpa [VoiceMutex] using h
      · exact h
  | uttDone o => exact mutex_resumeListening o s
  | acceptTimer =>
      simp only [step]; split
      · exact mutex_driverFound s h
      · exact h
  | pressBack => exact mutex_goBack s h
  | pressCompleteTrip => exact mutex_completeTrip s
  | pressRate r => exact mutex_submitRating r s

theorem mutex_run (evs : List Ev) (s : AppState) (h : VoiceMutex s) :
    VoiceMutex (run evs s) := by
  induction evs generalizing s with
  | nil => exact h
  | cons e rest ih => exact ih (step e s) (mutex_step e s h)

/-- Claim C1: for every sequence of capture/synthesis/timer/UI events from
the initial state, the session is never listening and speaking at the same
instant: `speak` clears `isListening` in the same update in which it sets
`aiSpeaking`, and `startListening` is a no-op while `aiSpeaking` or
`isProcessing` is set, so `isListening` and `aiSpeaking` are never both
true. -/
theorem c1_listening_speaking_mutex (evs : List Ev) :
    ¬((run evs initState).isListening = true ∧ (run evs initState).aiSpeaking = true) :=
  mutex_run evs initState (by simp [VoiceMutex, initState])

/-- The state reached by enabling the voice assistant and then immediately
disabling it (two presses of the toggle, with no event in between). -/
def afterToggleOff : AppState := run [Ev.toggle, Ev.toggle] initState

/-- The fully-idle disabled configuration: no phase flag set, the feature
switch off, and no driver-found timer pending. -/
def DeadIdle (s : AppState) : Prop :=
  s.isListening = false ∧ s.aiSpeaking = false ∧ s.isProcessing = false ∧
  s.voiceActive = false ∧ s.pendingAccept = false

theorem deadIdle_step (e : Ev) (s : AppState) (h : DeadIdle s)
    (hs : e.spontaneous = true) : DeadIdle (step e s) := by
  obtain ⟨hL, hS, hP, hV, hA⟩ := h
  cases e with
  | toggle => simp [Ev.spontaneous] at hs
  | hbTick o => simp only [step, hV]; exact ⟨hL, hS, hP, hV, hA⟩
  | recStart => simp only [step, hL]; exact ⟨hL, hS, hP, hV, hA⟩
  | recEnd => exact ⟨rfl, hS, hP, hV, hA⟩
  | recError ns =>
      simp only [step]
      split
      · exact ⟨hL, hS, hP, hV, hA⟩
      · exact ⟨rfl, hS, hP, hV, hA⟩
  | voiceOk t d => simp only [step, hL, Bool.false_and, Bool.false_eq_true, if_false]
                   exact ⟨hL, hS, hP, hV, hA⟩
  | voiceFail t o => simp only [step, hL, Bool.false_and, Bool.false_eq_true, if_false]
                     exact ⟨hL, hS, hP, hV, hA⟩
  | speakDelayFire =>
      simp only [step]
      split
      · exact ⟨hL, hS, hP, hV, hA⟩
      · exact ⟨hL, hS, hP, hV, hA⟩
  | uttDone o =>
      simp only [step, resumeListening]
      dsimp only
      simp only [hV, Bool.false_eq_true, if_false]
      exact ⟨hL, rfl, hP, rfl, hA⟩
  | acceptTimer => simp only [step, hA]; exact ⟨hL, hS, hP, hV, hA⟩
  | pressBack => simp [Ev.spontaneous] at hs
  | pressCompleteTrip => simp [Ev.spontaneous] at hs
  | pressRate r => simp [Ev.spontaneous] at hs

theorem deadIdle_run (evs : List Ev) (s : AppState) (h : DeadIdle s)
    (hs : ∀ e ∈ evs, e.spontaneous = true) : DeadIdle (run evs s) := by
  induction evs generalizing s with
  | nil => exact h
  | cons e rest ih =>
      exact ih (step e s) (deadIdle_step e s h (hs e (List.mem_cons_self e rest)))
        (fun e' he' => hs e' (List.mem_cons_of_mem e he'))

/-- Claim C9, counterexample to the claim as stated: enabling and then
immediately disabling the voice assistant does not cancel all pending
synthesis.  The greeting scheduled by `speak` behind its 50 ms timeout is
still pending after the disable (`synthRef.current.cancel()` only clears
the synthesizer queue, not the timeout), so when the delay fires the
greeting utterance reaches the synthesizer after the session was disabled. -/
theorem c9_pending_synthesis_survives :
    afterToggleOff.voiceActive = false ∧
    afterToggleOff.speakDelayPending = true ∧
    (step Ev.speakDelayFire afterToggleOff).synthQueued = true := by decide

/-- Claim C9 (amended): enabling then immediately disabling the voice
assistant returns the phase to Idle (no listening/speaking/processing
flag set), cancels the heartbeat (its ticks are no-ops afterwards) and any
utterance already handed to the synthesizer; the greeting still sitting
behind the 50 ms speak delay is, however, not cancelled and reaches the
synthesizer when the delay fires.  No phase flag ever becomes true again
under any further sequence of spontaneous (timer/adapter) events. -/
theorem c9_toggle_roundtrip_idle :
    (afterToggleOff.isListening = false ∧ afterToggleOff.aiSpeaking = false ∧
     afterToggleOff.isProcessing = false ∧ afterToggleOff.voiceActive = false) ∧
    afterToggleOff.synthQueued = false ∧
    afterToggleOff.speakDelayPending = true ∧
    (∀ o : StartOutcome, step (Ev.hbTick o) afterToggleOff = afterToggleOff) ∧
    (∀ evs : List Ev, (∀ e ∈ evs, e.spontaneous = true) →
      (run evs afterToggleOff).isListening = false ∧
      (run evs afterToggleOff).aiSpeaking = false ∧
      (run evs afterToggleOff).isProcessing = false) := by
  have hdead : DeadIdle afterToggleOff := by
    unfold DeadIdle
    refine ⟨?_, ?_, ?_, ?_, ?_⟩ <;> decide
  have hv : afterToggleOff.voiceActive = false := by decide
  refine ⟨by decide, by decide, by decide, fun o => by simp [step, hv], ?_⟩
  intro evs hs
  have h := deadIdle_run evs afterToggleOff hdead hs
  exact ⟨h.1, h.2.1, h.2.2.1⟩

theorem c9_toggle_roundtrip_idle_wit :
    (run [Ev.speakDelayFire, Ev.uttDone StartOutcome.ok] afterToggleOff).isListening = false ∧
    (run [Ev.speakDelayFire, Ev.uttDone StartOutcome.ok] afterToggleOff).aiSpeaking = false ∧
    (run [Ev.speakDelayFire, Ev.uttDone StartOutcome.ok] afterToggleOff).isProcessing = false :=
  c9_toggle_roundtrip_idle.2.2.2.2 [Ev.speakDelayFire, Ev.uttDone StartOutcome.ok]
    (by intro e he; simp only [List.mem_cons, List.mem_singleton] at he
        rcases he with h | h | h <;> first | (subst h; rfl) | exact absurd h (by simp))

/-- An enabled, otherwise idle session. -/
def readyState : AppState := { initState with voiceActive := true }

/-- An enabled session with capture active. -/
def listeningState : AppState := { initState with voiceActive := true, isListening := true }

/-- Claim C2, counterexample to the claim as stated: when the
intent-interpretation call fails, the catch block of `processVoiceCommand`
produces NO spoken prompt at all (`// Don't speak error endlessly, just
let heartbeat resume`), not the claimed single apology prompt: after a
failure on transcript `"llévame al centro"` the log of speak requests is
still empty. -/
theorem c2_no_fallback_prompt :
    (processVoiceCommandFailure "llévame al centro" StartOutcome.ok listeningState).spoken
      = ([] : List String) ∧
    listeningState.voiceActive = true := by
  exact ⟨by decide, by decide⟩

/-- Claim C2 (amended): when the intent-interpretation call fails (timeout,
empty response, or parse failure) while processing a transcript, the code
speaks nothing - zero fallback prompts, not one - applies zero
application-state mutations (view, role, trip request, active trip and both
profiles unchanged), clears the processing flag, and resumes listening
directly when the voice feature is still enabled and the adapter allows the
restart. -/
theorem c2_intent_failure_silent (text : String) (o : StartOutcome) (s : AppState) :
    (processVoiceCommandFailure text o s).spoken = s.spoken ∧
    (processVoiceCommandFailure text o s).currentView = s.currentView ∧
    (processVoiceCommandFailure text o s).userType = s.userType ∧
    (processVoiceCommandFailure text o s).tripRequest = s.tripRequest ∧
    (processVoiceCommandFailure text o s).activeTrip = s.activeTrip ∧
    (processVoiceCommandFailure text o s).passengerProfile = s.passengerProfile ∧
    (processVoiceCommandFailure text o s).driverProfile = s.driverProfile ∧
    (processVoiceCommandFailure text o s).isProcessing = false ∧
    (s.voiceActive = true → s.aiSpeaking = false → s.isListening = false →
     o = StartOutcome.ok → (processVoiceCommandFailure text o s).isListening = true) := by
  unfold processVoiceCommandFailure
  dsimp only
  split
  · rename_i hva
    unfold startListening
    split
    · rename_i hguard
      refine ⟨rfl, rfl, rfl, rfl, rfl, rfl, rfl, rfl, ?_⟩
      intro _ hS hL _
      simp [hS, hL] at hguard
    · cases o with
      | ok => exact ⟨rfl, rfl, rfl, rfl, rfl, rfl, rfl, rfl, fun _ _ _ _ => rfl⟩
      | permissionDenied =>
          refine ⟨rfl, rfl, rfl, rfl, rfl, rfl, rfl, rfl, ?_⟩
          intro _ _ _ ho
          exact absurd ho (by simp)
      | otherFailure =>
          refine ⟨rfl, rfl, rfl, rfl, rfl, rfl, rfl, rfl, ?_⟩
          intro _ _ _ ho
          exact absurd ho (by simp)
  · rename_i hva
    refine ⟨rfl, rfl, rfl, rfl, rfl, rfl, rfl, rfl, ?_⟩
    intro hv _ _ _
    exact absurd hv hva

theorem c2_intent_failure_silent_wit :
    (processVoiceCommandFailure "hola" StartOutcome.ok readyState).spoken = readyState.spoken ∧
    (processVoiceCommandFailure "hola" StartOutcome.ok readyState).isListening = true := by
  have h := c2_intent_failure_silent "hola" StartOutcome.ok readyState
  exact ⟨h.1, h.2.2.2.2.2.2.2.2 (by decide) (by decide) (by decide) rfl⟩

/-- Claim C3, counterexample to the claim as stated: a permission-denied
capture start failure is NOT terminal for the session.  The failure leaves
the state completely unchanged - in particular the voice feature is still
enabled, not surfaced as disabled - and the watchdog keeps re-issuing
start-listening attempts: the very next heartbeat tick restarts capture. -/
theorem c3_permission_denied_not_terminal :
    startListening StartOutcome.permissionDenied readyState = readyState ∧
    (startListening StartOutcome.permissionDenied readyState).voiceActive = true ∧
    (step (Ev.hbTick StartOutcome.ok)
        (startListening StartOutcome.permissionDenied readyState)).isListening = true := by
  refine ⟨rfl, by decide, by decide⟩

/-- Claim C3 (amended): every capture start failure - permission denied
included - is swallowed by `startListening` (the `not-allowed` check in the
catch block only guards a commented-out log): the component state is left
unchanged, so the voice feature stays enabled and nothing surfaces as a
disabled state, and the watchdog does not stop: a heartbeat tick in an
enabled, otherwise idle session re-issues the start and succeeds when the
adapter lets it. -/
theorem c3_start_failures_swallowed (s : AppState) (o : StartOutcome)
    (ho : o ≠ StartOutcome.ok) :
    startListening o s = s ∧
    (s.voiceActive = true → s.isListening = false → s.aiSpeaking = false →
     s.isProcessing = false →
      (step (Ev.hbTick StartOutcome.ok) s).isListening = true) := by
  constructor
  · unfold startListening
    split
    · rfl
    · cases o with
      | ok => exact absurd rfl ho
      | permissionDenied => rfl
      | otherFailure => rfl
  · intro hv hl hs hp
    simp [step, heartbeatTick, startListening, hv, hl, hs, hp]

theorem c3_start_failures_swallowed_wit :
    startListening StartOutcome.permissionDenied readyState = readyState ∧
    (step (Ev.hbTick StartOutcome.ok) readyState).isListening = true := by
  have h := c3_start_failures_swallowed readyState StartOutcome.permissionDenied (by decide)
  exact ⟨h.1, h.2 (by decide) (by decide) (by decide) (by decide)⟩

/-- A driver sitting in the driver registration view. -/
def driverRegState : AppState :=
  { initState with currentView := .driverRegister, userType := some .driver }

/-- A `NAVIGATE_DESTINATION` intent. -/
def navIntent : IntentData :=
  { action := .NAVIGATE_DESTINATION, value := "Plaza Principal", speech := "Vamos" }

/-- Claim C4, counterexample to the claim as stated: dispatching
`NAVIGATE_DESTINATION` while the snapshot view is the driver registration
view does NOT switch to the driver dashboard - the switch in the source
only tests `currentView === 'passenger-register'` - although destination
resolution is still triggered with the value as hint. -/
theorem c4_driver_register_not_switched :
    (executeActions navIntent driverRegState driverRegState).currentView
      = View.driverRegister ∧
    View.driverRegister ≠ View.driverDashboard ∧
    (executeActions navIntent driverRegState driverRegState).destinationResolves
      = ["Plaza Principal"] := by
  exact ⟨by decide, by decide, by decide⟩

/-- Claim C4 (amended): for every dispatched `NAVIGATE_DESTINATION` intent,
destination resolution is triggered with the intent value as free-text hint
regardless of view, and the view is switched only when the snapshot view is
the passenger registration view (to the passenger dashboard); the driver
registration view - like every other view - is left unchanged. -/
theorem c4_navigate_destination (d : IntentData) (snap s : AppState)
    (h : d.action = ActionKind.NAVIGATE_DESTINATION) :
    (executeActions d snap s).destinationResolves
      = s.destinationResolves ++ [d.value] ∧
    (executeActions d snap s).currentView =
      (if snap.currentView = View.passengerRegister then View.passengerDashboard
       else s.currentView) := by
  obtain ⟨a, v, sp⟩ := d
  simp only at h
  subst h
  unfold executeActions
  dsimp only
  constructor
  · by_cases hv : snap.currentView = View.passengerRegister <;>
      simp [hv, speak, handleSetDestination]
  · by_cases hv : snap.currentView = View.passengerRegister <;>
      simp [hv, speak, handleSetDestination]

theorem c4_navigate_destination_wit :
    (executeActions navIntent initState initState).destinationResolves
      = initState.destinationResolves ++ [navIntent.value] ∧
    (executeActions navIntent initState initState).currentView =
      (if initState.currentView = View.passengerRegister then View.passengerDashboard
       else initState.currentView) :=
  c4_navigate_destination navIntent initState initState rfl

/-- Claim C5: for every dispatched intent whose context guard does not hold
- `CONFIRM_TRIP` when the snapshot view is not the passenger dashboard or
no destination is resolved (null or zero latitude, per JS truthiness), and
`SET_PASSENGER_NAME`/`SET_DRIVER_NAME` outside the matching registration or
home view - no state mutation is applied: the whole dispatch equals a bare
`speak` of the intent prompt, so view, role, active trip, trip request and
both profiles are unchanged, while the prompt (`"Entendido."` for an empty
one) is still spoken. -/
theorem c5_guard_miss_no_mutation (d : IntentData) (snap s : AppState)
    (h : (d.action = ActionKind.CONFIRM_TRIP ∧
            ¬(snap.currentView = View.passengerDashboard ∧
              truthyQ snap.tripRequest.destinationLat = true)) ∨
         (d.action = ActionKind.SET_PASSENGER_NAME ∧
            snap.currentView ≠ View.passengerRegister ∧ snap.currentView ≠ View.home) ∨
         (d.action = ActionKind.SET_DRIVER_NAME ∧
            snap.currentView ≠ View.driverRegister ∧ snap.currentView ≠ View.home)) :
    executeActions d snap s = speak (if d.speech = "" then "Entendido." else d.speech) s ∧
    (executeActions d snap s).currentView = s.currentView ∧
    (executeActions d snap s).userType = s.userType ∧
    (executeActions d snap s).activeTrip = s.activeTrip ∧
    (executeActions d snap s).tripRequest = s.tripRequest ∧
    (executeActions d snap s).passengerProfile = s.passengerProfile ∧
    (executeActions d snap s).driverProfile = s.driverProfile ∧
    (executeActions d snap s).spoken =
      s.spoken ++ [if d.speech = "" then "Entendido." else d.speech] := by
  have key : executeActions d snap s
      = speak (if d.speech = "" then "Entendido." else d.speech) s := by
    obtain ⟨a, v, sp⟩ := d
    rcases h with ⟨ha, hg⟩ | ⟨ha, h1, h2⟩ | ⟨ha, h1, h2⟩
    · simp only at ha
      subst ha
      unfold executeActions
      dsimp only
      rw [if_neg hg]
    · simp only at ha
      subst ha
      unfold executeActions
      dsimp only
      rw [if_neg (show ¬(snap.currentView = View.passengerRegister ∨
            snap.currentView = View.home) from fun hor => hor.elim h1 h2)]
    · simp only at ha
      subst ha
      unfold executeActions
      dsimp only
      rw [if_neg (show ¬(snap.currentView = View.driverRegister ∨
            snap.currentView = View.home) from fun hor => hor.elim h1 h2)]
  refine ⟨key, ?_, ?_, ?_, ?_, ?_, ?_, ?_⟩ <;> rw [key] <;> simp [speak]

/-- A `CONFIRM_TRIP` intent with a non-empty prompt. -/
def confirmIntent : IntentData :=
  { action := .CONFIRM_TRIP, value := "", speech := "Claro, pido tu moto." }

theorem c5_guard_miss_no_mutation_wit :
    executeActions confirmIntent initState initState
      = speak (if confirmIntent.speech = "" then "Entendido." else confirmIntent.speech)
          initState ∧
    (executeActions confirmIntent initState initState).currentView
      = initState.currentView ∧
    (executeActions confirmIntent initState initState).userType = initState.userType ∧
    (executeActions confirmIntent initState initState).activeTrip
      = initState.activeTrip ∧
    (executeActions confirmIntent initState initState).tripRequest
      = initState.tripRequest ∧
    (executeActions confirmIntent initState initState).passengerProfile
      = initState.passengerProfile ∧
    (executeActions confirmIntent initState initState).driverProfile
      = initState.driverProfile ∧
    (executeActions confirmIntent initState initState).spoken =
      initState.spoken ++
        [if confirmIntent.speech = "" then "Entendido." else confirmIntent.speech] :=
  c5_guard_miss_no_mutation confirmIntent initState initState
    (Or.inl ⟨rfl, by decide⟩)

/-- Claim C6: dispatching `SET_PASSENGER_PHONE` / `SET_DRIVER_PHONE` stores
the raw value with all non-digit characters stripped, and
`SET_DRIVER_PLATE` stores it with all non-alphanumeric characters stripped
and letters uppercased; in particular `"310 555 9999"` is stored as
`"3105559999"` and `"x y z 555"` as `"XYZ555"`. -/
theorem c6_sanitizers (d : IntentData) (snap s : AppState) :
    (d.action = ActionKind.SET_PASSENGER_PHONE →
      (executeActions d snap s).passengerProfile.phone = cleanPhone d.value) ∧
    (d.action = ActionKind.SET_DRIVER_PHONE →
      (executeActions d snap s).driverProfile.phone = cleanPhone d.value) ∧
    (d.action = ActionKind.SET_DRIVER_PLATE →
      (executeActions d snap s).driverProfile.plate = cleanPlate d.value) ∧
    cleanPhone "310 555 9999" = "3105559999" ∧
    cleanPlate "x y z 555" = "XYZ555" := by
  refine ⟨?_, ?_, ?_, by decide, by decide⟩
  all_goals
    intro h
    obtain ⟨a, v, sp⟩ := d
    simp only at h
    subst h
    unfold executeActions
    dsimp only
    simp [speak]

/-- A `SET_PASSENGER_PHONE` intent carrying the spec example value. -/
def phoneIntent : IntentData :=
  { action := .SET_PASSENGER_PHONE, value := "310 555 9999", speech := "Guardado." }

/-- A `SET_DRIVER_PHONE` intent carrying the spec example value. -/
def driverPhoneIntent : IntentData :=
  { action := .SET_DRIVER_PHONE, value := "310 555 9999", speech := "Guardado." }

/-- A `SET_DRIVER_PLATE` intent carrying the spec example value. -/
def plateIntent : IntentData :=
  { action := .SET_DRIVER_PLATE, value := "x y z 555", speech := "Placa registrada." }

theorem c6_sanitizers_wit :
    (executeActions phoneIntent initState initState).passengerProfile.phone
      = cleanPhone "310 555 9999" ∧
    (executeActions driverPhoneIntent initState initState).driverProfile.phone
      = cleanPhone "310 555 9999" ∧
    (executeActions plateIntent initState initState).driverProfile.plate
      = cleanPlate "x y z 555" :=
  ⟨(c6_sanitizers phoneIntent initState initState).1 rfl,
   (c6_sanitizers driverPhoneIntent initState initState).2.1 rfl,
   (c6_sanitizers plateIntent initState initState).2.2.1 rfl⟩

/-- A trip request with pickup and destination resolved. -/
def populatedRequest : TripRequest :=
  { pickupLat := some 4.60, pickupLng := some (-74.08), pickupAddress := "Calle 1 # 2-3"
    destinationLat := some 4.61, destinationLng := some (-74.07)
    destinationAddress := "Plaza Principal", distance := 2, price := 5000 }

/-- The searching trip built from `populatedRequest`. -/
def demoTrip : Trip :=
  { id := 0, pickupLat := 4.60, pickupLng := -74.08, pickupAddress := "Calle 1 # 2-3"
    destinationLat := 4.61, destinationLng := -74.07
    destinationAddress := "Plaza Principal", status := .searching, distance := 2
    price := 5000, passengerName := "Ana", passengerPhone := "3001234567"
    passengerPhoto := none, driverName := none, driverPhone := none
    driverPlate := none, driverLat := none, driverLng := none, driverPhoto := none }

/-- A passenger waiting on the searching screen with a populated request. -/
def searchingState : AppState :=
  { initState with
    currentView := .searching
    userType := some .passenger
    tripRequest := populatedRequest
    activeTrip := some demoTrip }

/-- Claim C8, counterexample to the claim as stated: cancelling the search
(the back action from the `searching` view) clears the active trip but does
NOT reset the `TripRequest` record - the populated request, destination
coordinates included, survives unchanged. -/
theorem c8_cancel_search_keeps_request :
    (goBack searchingState).tripRequest = populatedRequest ∧
    populatedRequest.destinationLat ≠ none ∧
    (goBack searchingState).activeTrip = none := by
  refine ⟨rfl, by simp [populatedRequest], rfl⟩

/-- Claim C8 (amended): the `TripRequest` is reset to all-null/empty by
driver-side trip completion and by rating submission (hence also by the
back action from the rating view); passenger-side trip completion does not
reset it - it only navigates to the rating view, deferring the reset to
the later rating submission - and cancelling the search clears the active
trip while leaving the `TripRequest` untouched. -/
theorem c8_trip_request_reset (s : AppState) (r : ℕ) :
    (¬(s.userType = some UserType.passenger) →
      (completeTrip s).tripRequest = emptyTripRequest) ∧
    (submitRating r s).tripRequest = emptyTripRequest ∧
    (s.userType = some UserType.passenger →
      (completeTrip s).tripRequest = s.tripRequest ∧
      (completeTrip s).currentView = View.rateDriver) ∧
    (s.currentView = View.searching →
      (goBack s).tripRequest = s.tripRequest ∧ (goBack s).activeTrip = none) := by
  refine ⟨?_, ?_, ?_, ?_⟩
  · intro h
    unfold completeTrip
    rw [if_neg h]
    simp [speak]
  · unfold submitRating
    simp [speak]
  · intro h
    unfold completeTrip
    rw [if_pos h]
    exact ⟨by simp [speak], by simp [speak]⟩
  · intro h
    simp [goBack, h]

theorem c8_trip_request_reset_wit :
    (completeTrip initState).tripRequest = emptyTripRequest ∧
    (submitRating 4 searchingState).tripRequest = emptyTripRequest ∧
    (completeTrip searchingState).tripRequest = searchingState.tripRequest ∧
    (completeTrip searchingState).currentView = View.rateDriver ∧
    (goBack searchingState).tripRequest = searchingState.tripRequest ∧
    (goBack searchingState).activeTrip = none := by
  have h0 := c8_trip_request_reset initState 4
  have h := c8_trip_request_reset searchingState 4
  exact ⟨h0.1 (by decide), h.2.1, (h.2.2.1 rfl).1, (h.2.2.1 rfl).2,
         (h.2.2.2 rfl).1, (h.2.2.2 rfl).2⟩

/-- Claim C10: when the current view is the rating view, the back action -
and therefore a dispatched `CANCEL` intent, which invokes it - submits a
5-star rating: it clears the active trip, resets the `TripRequest` to
all-null, navigates to the passenger dashboard, and speaks the thank-you
prompt (after which the `CANCEL` dispatch additionally speaks the intent
prompt). -/
theorem c10_back_from_rating_submits_five_stars (d : IntentData) (snap s : AppState)
    (h : s.currentView = View.rateDriver) :
    (goBack s).activeTrip = none ∧
    (goBack s).tripRequest = emptyTripRequest ∧
    (goBack s).currentView = View.passengerDashboard ∧
    (goBack s).spoken = s.spoken ++ ["Gracias por calificar con 5 estrellas."] ∧
    (d.action = ActionKind.CANCEL →
      (executeActions d snap s).activeTrip = none ∧
      (executeActions d snap s).tripRequest = emptyTripRequest ∧
      (executeActions d snap s).currentView = View.passengerDashboard ∧
      (executeActions d snap s).spoken =
        s.spoken ++ ["Gracias por calificar con 5 estrellas.",
                     if d.speech = "" then "Entendido." else d.speech]) := by
  have hstr : "Gracias por calificar con " ++ toString (5:ℕ) ++ " estrellas."
      = "Gracias por calificar con 5 estrellas." := by decide
  have hgb : goBack s = submitRating 5 s := by
    unfold goBack
    rw [h]
  have hgb4 : (goBack s).activeTrip = none ∧
      (goBack s).tripRequest = emptyTripRequest ∧
      (goBack s).currentView = View.passengerDashboard ∧
      (goBack s).spoken = s.spoken ++ ["Gracias por calificar con 5 estrellas."] := by
    rw [hgb]
    unfold submitRating
    refine ⟨by simp [speak], by simp [speak], by simp [speak], ?_⟩
    simp [speak, hstr]
  refine ⟨hgb4.1, hgb4.2.1, hgb4.2.2.1, hgb4.2.2.2, ?_⟩
  intro hd
  obtain ⟨a, v, sp⟩ := d
  simp only at hd
  subst hd
  unfold executeActions
  dsimp only
  refine ⟨by simp [speak, hgb4.1], by simp [speak, hgb4.2.1],
          by simp [speak, hgb4.2.2.1], ?_⟩
  simp [speak, hgb4.2.2.2]

/-- The rating view reached after a passenger trip, with trip data live. -/
def rateState : AppState := { searchingState with currentView := .rateDriver }

/-- A `CANCEL` intent. -/
def cancelIntent : IntentData := { action := .CANCEL, value := "", speech := "Volviendo." }

theorem c10_back_from_rating_submits_five_stars_wit :
    (goBack rateState).tripRequest = emptyTripRequest ∧
    (goBack rateState).currentView = View.passengerDashboard ∧
    (executeActions cancelIntent rateState rateState).currentView
      = View.passengerDashboard ∧
    (executeActions cancelIntent rateState rateState).tripRequest = emptyTripRequest := by
  have h := c10_back_from_rating_submits_five_stars cancelIntent rateState rateState rfl
  exact ⟨h.2.1, h.2.2.1, (h.2.2.2.2 rfl).2.2.1, (h.2.2.2.2 rfl).2.1⟩
